import Mathlib

/-!
Shallow embedding of the `fiber-go-swagger-example` HTTP API
(`src/main.go`).  The five Fiber handlers are pure functions of the
request data; we model the request body as an optional JSON value
(`none` standing for a body that is not syntactically valid JSON) and
model Go's `encoding/json` unmarshalling of the body into
`CreateUserRequest` (as invoked by Fiber's `c.BodyParser`).
-/

namespace FiberSwagger

/-- `User` struct of `main.go` (`id`, `name`, `email`, `age`). -/
structure User where
  id : Int
  name : String
  email : String
  age : Int
  deriving Repr, DecidableEq

/-- `CreateUserRequest` struct of `main.go`: the JSON body shape for the
create and update endpoints.  The `validate:"required,email,min=1"` tags
are documentation annotations only; no code in the repository reads them. -/
structure CreateUserRequest where
  name : String
  email : String
  age : Int
  deriving Repr, DecidableEq

/-- `ErrorResponse` struct of `main.go`. -/
structure ErrorResponse where
  error : String
  message : String
  deriving Repr, DecidableEq

/-- `SuccessResponse` struct of `main.go`.  The `Data` field is
`interface{}` with `json:"data,omitempty"`; every handler stores either a
`User` or nothing in it, so it is embedded as `Option User` (`none`
meaning the serialized object carries no `data` key at all). -/
structure SuccessResponse where
  message : String
  data : Option User
  deriving Repr, DecidableEq

/-- JSON values, as far as the bodies of this API can observe them.
Numbers are modelled as integers: the only numeric field decoded by the
program is the `int` field `age`, and Go rejects non-integral numerals
for it just as it rejects every other non-integer value, which the
claims never exercise. -/
inductive Json where
  | null : Json
  | bool : Bool → Json
  | num : Int → Json
  | str : String → Json
  | arr : List Json → Json
  | obj : List (String × Json) → Json

/-- ASCII case folding of a character, as `encoding/json` applies to
struct-field tag names (the tags here — `name`, `email`, `age` — are
plain ASCII). -/
def asciiFold (c : Char) : Char :=
  if 'A' ≤ c ∧ c ≤ 'Z' then Char.ofNat (c.toNat + 32) else c

/-- Go's `encoding/json` matches a JSON object key against the struct
field's tag name exactly or, failing that, case-insensitively; with a
single candidate field per name the two passes collapse to one
case-insensitive comparison. -/
def fieldKeyIs (k target : String) : Bool :=
  k.data.map asciiFold = target.data

/-- One step of `json.Unmarshal` into `CreateUserRequest`: assign JSON
value `v` under key `k`.  A `null` leaves the field untouched, a value of
the wrong type is an `UnmarshalTypeError` (`none`), and an unknown key is
ignored. -/
def setField (req : CreateUserRequest) (k : String) (v : Json) :
    Option CreateUserRequest :=
  if fieldKeyIs k "name" then
    match v with
    | Json.str s => some { req with name := s }
    | Json.null => some req
    | _ => none
  else if fieldKeyIs k "email" then
    match v with
    | Json.str s => some { req with email := s }
    | Json.null => some req
    | _ => none
  else if fieldKeyIs k "age" then
    match v with
    | Json.num n => some { req with age := n }
    | Json.null => some req
    | _ => none
  else
    some req

/-- Decode the key/value pairs of a JSON object into `CreateUserRequest`,
in order (on duplicate keys the later assignment wins, as in Go's
streaming decoder). -/
def decodeFields : CreateUserRequest → List (String × Json) →
    Option CreateUserRequest
  | req, [] => some req
  | req, (k, v) :: rest =>
    match setField req k v with
    | none => none
    | some req2 => decodeFields req2 rest

/-- `json.Unmarshal` of a JSON value into a fresh `CreateUserRequest`:
an object decodes field by field starting from the zero value
`{Name:"", Email:"", Age:0}`, a top-level `null` leaves the zero value,
and any other top-level shape is an `UnmarshalTypeError`. -/
def decodeCreateUserRequest : Json → Option CreateUserRequest
  | Json.obj fields => decodeFields ⟨"", "", 0⟩ fields
  | Json.null => some ⟨"", "", 0⟩
  | _ => none

/-- Fiber's `c.BodyParser(&req)` for these handlers: fails (`none`) when
the body is not syntactically valid JSON, otherwise unmarshals the JSON
value into `CreateUserRequest`. -/
def bodyParser (body : Option Json) : Option CreateUserRequest :=
  body.bind decodeCreateUserRequest

/-- The possible response payload shapes produced by the five handlers. -/
inductive Body where
  | users : List User → Body
  | user : User → Body
  | error : ErrorResponse → Body
  | success : SuccessResponse → Body
  deriving Repr, DecidableEq

/-- An HTTP response: status code plus serialized payload. -/
structure Response where
  status : Nat
  body : Body
  deriving Repr, DecidableEq

/-- `getUsers` (`main.go` lines 84-92): always the fixed two-element mock
list with status 200; the `page` and `limit` query parameters are never
read by the handler. -/
def getUsers (_page _limit : Option String) : Response :=
  ⟨200, Body.users
    [⟨1, "John Doe", "john@example.com", 30⟩,
     ⟨2, "Jane Smith", "jane@example.com", 25⟩]⟩

/-- `getUserByID` (`main.go` lines 105-124): compares the raw `id` path
parameter string against the literal `"1"`. -/
def getUserByID (id : String) : Response :=
  if id = "1" then
    ⟨200, Body.user ⟨1, "John Doe", "john@example.com", 30⟩⟩
  else
    ⟨404, Body.error ⟨"Not Found", "User not found"⟩⟩

/-- `createUser` (`main.go` lines 137-159). -/
def createUser (body : Option Json) : Response :=
  match bodyParser body with
  | none => ⟨400, Body.error ⟨"Bad Request", "Invalid JSON format"⟩⟩
  | some req =>
    ⟨201, Body.success ⟨"User created successfully",
      some ⟨3, req.name, req.email, req.age⟩⟩⟩

/-- `updateUser` (`main.go` lines 173-199): the `id` path parameter is
logged but never used; the fabricated user has the constant id `1`. -/
def updateUser (_id : String) (body : Option Json) : Response :=
  match bodyParser body with
  | none => ⟨400, Body.error ⟨"Bad Request", "Invalid JSON format"⟩⟩
  | some req =>
    ⟨200, Body.success ⟨"User updated successfully",
      some ⟨1, req.name, req.email, req.age⟩⟩⟩

/-- `deleteUser` (`main.go` lines 212-223): the `id` path parameter is
logged but never used. -/
def deleteUser (_id : String) : Response :=
  ⟨200, Body.success ⟨"User deleted successfully", none⟩⟩

/-- The five routes registered under `/api/v1` in `main` (lines 37-41). -/
inductive Request where
  | listUsers : Option String → Option String → Request
  | getUser : String → Request
  | create : Option Json → Request
  | update : String → Option Json → Request
  | delete : String → Request

/-- Dispatch of a matched route to its handler, as wired up in `main`. -/
def handle : Request → Response
  | Request.listUsers page limit => getUsers page limit
  | Request.getUser id => getUserByID id
  | Request.create body => createUser body
  | Request.update id body => updateUser id body
  | Request.delete id => deleteUser id

/-- A whole session: the responses to a sequence of requests.  The
handlers keep no state between calls (no handler writes any data that
outlives its invocation), so a session is just the pointwise image. -/
def handleAll (rs : List Request) : List Response :=
  rs.map handle

/-- The `ErrorResponse` produced by the malformed-body branch shared by
`createUser` and `updateUser`. -/
def invalidJsonError : Response :=
  ⟨400, Body.error ⟨"Bad Request", "Invalid JSON format"⟩⟩

/-- Whether a JSON object carries a key that `encoding/json` would match
against the struct field tagged `target`. -/
def hasKey (target : String) : List (String × Json) → Bool
  | [] => false
  | (k, _) :: rest => fieldKeyIs k target || hasKey target rest

theorem setField_preserves_name {acc acc2 : CreateUserRequest} {k : String}
    {v : Json} (hk : fieldKeyIs k "name" = false)
    (h : setField acc k v = some acc2) : acc2.name = acc.name := by
  unfold setField at h
  rw [hk] at h
  simp only [Bool.false_eq_true, if_false] at h
  split at h
  · cases v <;>
      first
      | exact Option.noConfusion h
      | (injection h with h2; subst h2; rfl)
  · split at h
    · cases v <;>
        first
        | exact Option.noConfusion h
        | (injection h with h2; subst h2; rfl)
    · injection h with h2; subst h2; rfl

theorem setField_preserves_email {acc acc2 : CreateUserRequest} {k : String}
    {v : Json} (hk : fieldKeyIs k "email" = false)
    (h : setField acc k v = some acc2) : acc2.email = acc.email := by
  unfold setField at h
  split at h
  · cases v <;>
      first
      | exact Option.noConfusion h
      | (injection h with h2; subst h2; rfl)
  · rw [hk] at h
    simp only [Bool.false_eq_true, if_false] at h
    split at h
    · cases v <;>
        first
        | exact Option.noConfusion h
        | (injection h with h2; subst h2; rfl)
    · injection h with h2; subst h2; rfl

theorem setField_preserves_age {acc acc2 : CreateUserRequest} {k : String}
    {v : Json} (hk : fieldKeyIs k "age" = false)
    (h : setField acc k v = some acc2) : acc2.age = acc.age := by
  unfold setField at h
  split at h
  · cases v <;>
      first
      | exact Option.noConfusion h
      | (injection h with h2; subst h2; rfl)
  · split at h
    · cases v <;>
        first
        | exact Option.noConfusion h
        | (injection h with h2; subst h2; rfl)
    · rw [hk] at h
      simp only [Bool.false_eq_true, if_false] at h
      injection h with h2; subst h2; rfl

/-- Unmarshalling touches only the fields named by the object's keys:
a field whose key is absent keeps the value it started from. -/
theorem decodeFields_omitted (fields : List (String × Json)) :
    ∀ acc req : CreateUserRequest, decodeFields acc fields = some req →
      (hasKey "name" fields = false → req.name = acc.name) ∧
      (hasKey "email" fields = false → req.email = acc.email) ∧
      (hasKey "age" fields = false → req.age = acc.age) := by
  induction fields with
  | nil =>
    intro acc req h
    simp only [decodeFields, Option.some.injEq] at h
    subst h
    simp
  | cons kv rest ih =>
    obtain ⟨k, v⟩ := kv
    intro acc req h
    simp only [decodeFields] at h
    cases hs : setField acc k v with
    | none => rw [hs] at h; exact absurd h (by simp)
    | some acc2 =>
      rw [hs] at h
      obtain ⟨h1, h2, h3⟩ := ih acc2 req h
      refine ⟨?_, ?_, ?_⟩ <;>
        · intro hk
          simp only [hasKey, Bool.or_eq_false_iff] at hk
          first
          | exact (h1 hk.2).trans (setField_preserves_name hk.1 hs)
          | exact (h2 hk.2).trans (setField_preserves_email hk.1 hs)
          | exact (h3 hk.2).trans (setField_preserves_age hk.1 hs)

/-- C1: GET /api/v1/users/{id} answers the path-parameter string "1"
with status 200 and the canonical mock user
{id:1, name:"John Doe", email:"john@example.com", age:30}, and every
other string (numeric or not) with status 404 and
ErrorResponse{error:"Not Found", message:"User not found"}. -/
theorem c1_getUserByID_spec :
    getUserByID "1" =
      ⟨200, Body.user ⟨1, "John Doe", "john@example.com", 30⟩⟩ ∧
    ∀ id : String, id ≠ "1" →
      getUserByID id = ⟨404, Body.error ⟨"Not Found", "User not found"⟩⟩ := by
  refine ⟨rfl, ?_⟩
  intro id h
  simp [getUserByID, h]

/-- Witness for C1 at the non-numeric id "abc". -/
theorem c1_witness :
    getUserByID "abc" = ⟨404, Body.error ⟨"Not Found", "User not found"⟩⟩ :=
  c1_getUserByID_spec.2 "abc" (by decide)

/-- C5: GET /api/v1/users returns status 200 with exactly the fixed
two-element user array no matter which page/limit query parameters are
supplied; no other branch exists, so the documented 500 response is
unreachable. -/
theorem c5_getUsers_const :
    ∀ page limit : Option String,
      getUsers page limit =
        ⟨200, Body.users
          [⟨1, "John Doe", "john@example.com", 30⟩,
           ⟨2, "Jane Smith", "jane@example.com", 25⟩]⟩ := by
  intro _ _
  rfl

/-- C6: DELETE /api/v1/users/{id} returns, for every id string, status
200 with SuccessResponse{message:"User deleted successfully"} and no
data field (the `omitempty` field is absent); no 404 or other failure
branch exists. -/
theorem c6_deleteUser_const :
    ∀ id : String,
      deleteUser id =
        ⟨200, Body.success ⟨"User deleted successfully", none⟩⟩ := by
  intro _
  rfl

/-- C9: there is a syntactically valid JSON object body — here one whose
`age` field is the JSON string "30" — that POST /api/v1/users rejects
with the 400 Bad Request response rather than accepting with 201,
because unmarshalling into CreateUserRequest rejects field-type
mismatches; PUT /api/v1/users/{id} rejects the same body identically. -/
theorem c9_type_mismatch_rejected :
    createUser (some (Json.obj
        [("name", Json.str "John Doe"),
         ("email", Json.str "john@example.com"),
         ("age", Json.str "30")])) = invalidJsonError ∧
    updateUser "7" (some (Json.obj
        [("name", Json.str "John Doe"),
         ("email", Json.str "john@example.com"),
         ("age", Json.str "30")])) = invalidJsonError := by
  exact ⟨rfl, rfl⟩

/-- C2 counterexample: the body `{"age": "thirty"}` is a syntactically
valid JSON object, yet POST /api/v1/users answers it with the 400 Bad
Request error response — not with status 201 as the claim asserts for
every valid JSON object body. -/
theorem c2_counterexample :
    createUser (some (Json.obj [("age", Json.str "thirty")])) =
      ⟨400, Body.error ⟨"Bad Request", "Invalid JSON format"⟩⟩ ∧
    (createUser (some (Json.obj [("age", Json.str "thirty")]))).status ≠ 201 := by
  exact ⟨rfl, by decide⟩

/-- C2 (amended): for every JSON body that unmarshals into
CreateUserRequest — an object whose present name/email/age fields are
well-typed — POST /api/v1/users returns status 201 with
SuccessResponse{message:"User created successfully"} whose data is a
User with id 3 and the submitted name, email, age; and the declared
required/email/min constraints are not enforced: a body with an empty
name, a non-email string and age 0 is still accepted with 201. -/
theorem c2_createUser_spec :
    (∀ (j : Json) (req : CreateUserRequest),
        decodeCreateUserRequest j = some req →
        createUser (some j) =
          ⟨201, Body.success ⟨"User created successfully",
            some ⟨3, req.name, req.email, req.age⟩⟩⟩) ∧
    createUser (some (Json.obj
        [("name", Json.str ""),
         ("email", Json.str "not-an-email"),
         ("age", Json.num 0)])) =
      ⟨201, Body.success ⟨"User created successfully",
        some ⟨3, "", "not-an-email", 0⟩⟩⟩ := by
  refine ⟨?_, rfl⟩
  intro j req h
  simp [createUser, bodyParser, h]

/-- Witness for C2 (amended) at the body {"name": "Bob"}. -/
theorem c2_witness :
    createUser (some (Json.obj [("name", Json.str "Bob")])) =
      ⟨201, Body.success ⟨"User created successfully",
        some ⟨3, "Bob", "", 0⟩⟩⟩ :=
  c2_createUser_spec.1 (Json.obj [("name", Json.str "Bob")])
    ⟨"Bob", "", 0⟩ (by decide)

/-- C3: for every id path parameter and every body that unmarshals into
CreateUserRequest, PUT /api/v1/users/{id} returns status 200 with
SuccessResponse{message:"User updated successfully"} whose data is a
User with the constant id 1 — independent of the path parameter — and
the name, email, age echoed from the body. -/
theorem c3_updateUser_spec :
    ∀ (id : String) (body : Option Json) (req : CreateUserRequest),
      bodyParser body = some req →
      updateUser id body =
        ⟨200, Body.success ⟨"User updated successfully",
          some ⟨1, req.name, req.email, req.age⟩⟩⟩ := by
  intro id body req h
  simp [updateUser, h]

/-- Witness for C3 at id "42" and the body {"name":"X","email":"x@y.z","age":7}. -/
theorem c3_witness :
    updateUser "42" (some (Json.obj
        [("name", Json.str "X"), ("email", Json.str "x@y.z"),
         ("age", Json.num 7)])) =
      ⟨200, Body.success ⟨"User updated successfully",
        some ⟨1, "X", "x@y.z", 7⟩⟩⟩ :=
  c3_updateUser_spec "42"
    (some (Json.obj [("name", Json.str "X"), ("email", Json.str "x@y.z"),
      ("age", Json.num 7)]))
    ⟨"X", "x@y.z", 7⟩ (by decide)

/-- C4: POST /api/v1/users and PUT /api/v1/users/{id} return status 400
with ErrorResponse{error:"Bad Request", message:"Invalid JSON format"}
exactly when the body fails to unmarshal into CreateUserRequest, and on
that failure the error response is the entire result: no success payload
accompanies it. -/
theorem c4_badRequest_iff_parse_failure :
    ∀ body : Option Json,
      (createUser body = invalidJsonError ↔ bodyParser body = none) ∧
      ∀ id : String,
        (updateUser id body = invalidJsonError ↔ bodyParser body = none) := by
  intro body
  cases h : bodyParser body <;>
    simp [createUser, updateUser, h, invalidJsonError]

/-- Witness for C4 at the non-JSON body and at a well-formed body. -/
theorem c4_witness :
    createUser none = invalidJsonError ∧
    ¬ updateUser "9" (some (Json.obj [])) = invalidJsonError :=
  ⟨(c4_badRequest_iff_parse_failure none).1.mpr rfl,
   fun h => by
     have := ((c4_badRequest_iff_parse_failure (some (Json.obj []))).2 "9").mp h
     simp [bodyParser, decodeCreateUserRequest, decodeFields] at this⟩

/-- C7: every handler is a pure function of its request: the response to
any request is unchanged by whatever requests preceded it in a session,
and repeating one fixed request n times yields the same response n
times. -/
theorem c7_handlers_stateless :
    ∀ (prev : List Request) (r : Request) (n : Nat),
      handleAll (prev ++ [r]) = handleAll prev ++ [handle r] ∧
      handleAll (List.replicate n r) = List.replicate n (handle r) := by
  intro prev r n
  exact ⟨by simp [handleAll], by simp [handleAll, List.map_replicate]⟩

/-- C8: across the five handlers the only error bodies ever produced are
ErrorResponse{error:"Bad Request", message:"Invalid JSON format"} — and
then the status is 400 — and ErrorResponse{error:"Not Found",
message:"User not found"} — and then the status is 404; in particular no
handler ever answers with status 500, and every error is delivered as a
complete structured response (a status code together with the whole
ErrorResponse body). -/
theorem c8_error_taxonomy :
    (∀ (r : Request) (e : ErrorResponse),
        (handle r).body = Body.error e →
        (e = ⟨"Bad Request", "Invalid JSON format"⟩ ∧ (handle r).status = 400) ∨
        (e = ⟨"Not Found", "User not found"⟩ ∧ (handle r).status = 404)) ∧
    ∀ r : Request, (handle r).status ≠ 500 := by
  constructor
  · intro r e h
    cases r with
    | listUsers page limit => simp [handle, getUsers] at h
    | getUser id =>
      by_cases hid : id = "1"
      · simp [handle, getUserByID, hid] at h
      · right
        have hr : handle (Request.getUser id) =
            ⟨404, Body.error ⟨"Not Found", "User not found"⟩⟩ := by
          simp [handle, getUserByID, hid]
        rw [hr] at h ⊢
        simp at h
        exact ⟨h.symm, rfl⟩
    | create body =>
      cases hb : bodyParser body with
      | none =>
        left
        have hr : handle (Request.create body) = invalidJsonError := by
          simp [handle, createUser, hb, invalidJsonError]
        rw [hr] at h ⊢
        simp [invalidJsonError] at h
        exact ⟨h.symm, rfl⟩
      | some req => simp [handle, createUser, hb] at h
    | update id body =>
      cases hb : bodyParser body with
      | none =>
        left
        have hr : handle (Request.update id body) = invalidJsonError := by
          simp [handle, updateUser, hb, invalidJsonError]
        rw [hr] at h ⊢
        simp [invalidJsonError] at h
        exact ⟨h.symm, rfl⟩
      | some req => simp [handle, updateUser, hb] at h
    | delete id => simp [handle, deleteUser] at h
  · intro r
    cases r with
    | listUsers page limit => simp [handle, getUsers]
    | getUser id =>
      by_cases hid : id = "1" <;> simp [handle, getUserByID, hid]
    | create body =>
      cases hb : bodyParser body <;> simp [handle, createUser, hb]
    | update id body =>
      cases hb : bodyParser body <;> simp [handle, updateUser, hb]
    | delete id => simp [handle, deleteUser]

/-- Witness for C8 at the request GET /api/v1/users/2, whose response
carries the Not Found error body. -/
theorem c8_witness :
    ((⟨"Not Found", "User not found"⟩ : ErrorResponse) =
        ⟨"Bad Request", "Invalid JSON format"⟩ ∧
      (handle (Request.getUser "2")).status = 400) ∨
    ((⟨"Not Found", "User not found"⟩ : ErrorResponse) =
        ⟨"Not Found", "User not found"⟩ ∧
      (handle (Request.getUser "2")).status = 404) :=
  c8_error_taxonomy.1 (Request.getUser "2")
    ⟨"Not Found", "User not found"⟩ (by decide)

/-- C10 counterexample: the body `{"email": 5}` is a syntactically valid
JSON object that omits the name and age fields, yet POST /api/v1/users
answers it with status 400 — not with status 201 and zero-valued omitted
fields as the claim asserts for every object body with omissions. -/
theorem c10_counterexample :
    createUser (some (Json.obj [("email", Json.num 5)])) =
      ⟨400, Body.error ⟨"Bad Request", "Invalid JSON format"⟩⟩ ∧
    (createUser (some (Json.obj [("email", Json.num 5)]))).status ≠ 201 := by
  exact ⟨rfl, by decide⟩

/-- C10 (amended): for every JSON object body that unmarshals into
CreateUserRequest, POST /api/v1/users returns 201 with a data User of id
3 echoing the decoded fields, and each of name, email, age whose key the
object omits keeps its zero value ("" resp. 0); in particular the empty
object yields User{id:3, name:"", email:"", age:0}. -/
theorem c10_omitted_fields_spec :
    (∀ (fields : List (String × Json)) (req : CreateUserRequest),
        decodeCreateUserRequest (Json.obj fields) = some req →
        createUser (some (Json.obj fields)) =
          ⟨201, Body.success ⟨"User created successfully",
            some ⟨3, req.name, req.email, req.age⟩⟩⟩ ∧
        (hasKey "name" fields = false → req.name = "") ∧
        (hasKey "email" fields = false → req.email = "") ∧
        (hasKey "age" fields = false → req.age = 0)) ∧
    createUser (some (Json.obj [])) =
      ⟨201, Body.success ⟨"User created successfully", some ⟨3, "", "", 0⟩⟩⟩ := by
  refine ⟨?_, rfl⟩
  intro fields req h
  have hd : decodeFields ⟨"", "", 0⟩ fields = some req := h
  obtain ⟨h1, h2, h3⟩ := decodeFields_omitted fields ⟨"", "", 0⟩ req hd
  exact ⟨by simp [createUser, bodyParser, h], h1, h2, h3⟩

/-- Witness for C10 (amended) at the empty object body. -/
theorem c10_witness :
    createUser (some (Json.obj [])) =
      ⟨201, Body.success ⟨"User created successfully", some ⟨3, "", "", 0⟩⟩⟩ ∧
    ("" : String) = "" ∧ ("" : String) = "" ∧ (0 : Int) = 0 := by
  obtain ⟨h1, h2, h3, h4⟩ :=
    c10_omitted_fields_spec.1 [] ⟨"", "", 0⟩ (by decide)
  exact ⟨h1, h2 rfl, h3 rfl, h4 rfl⟩

end FiberSwagger
